import Mathlib

/-!
Shallow embedding of the TapeDeck playback/recording supervisor
(src/app/recorder.py, src/app/main.py, src/app/logger.py, src/app/utils.py,
src/app/state.py) and proofs about it.  External effects (subprocess
behaviour, clock readings, file-write outcomes, player states polled from
the VLC engine) are passed to the embedded functions as explicit inputs.
-/

set_option autoImplicit false

namespace TapeDeck

/-- PlayerState enum from src/app/state.py (the VLC engine state polled by
RadioPlayer.get_state). -/
inductive PlayerState
  | NOTHING_SPECIAL
  | OPENING
  | BUFFERING
  | PLAYING
  | PAUSED
  | STOPPED
  | ENDED
  | ERROR
deriving DecidableEq, Repr

/-- RecorderState enum from src/app/state.py. -/
inductive RecorderState
  | IDLE
  | STARTING
  | RECORDING
  | STOPPING
  | ERROR
deriving DecidableEq, Repr

/-- Mutable fields of TapeRecorder (src/app/recorder.py, __init__ lines
9-16) together with output_path and url, which start_recording assigns.
The subprocess handle is an opaque numeric id; time.monotonic readings are
whole seconds. -/
structure TapeRecorder where
  ffmpeg_path : String
  resolved_path : Option String
  process : Option Nat
  start_time_monotonic : Nat
  is_recording : Bool
  stderr_buffer : List String
  output_path : String
  url : String
deriving DecidableEq, Repr

/-- Modelled from the spec: src/app/main.py reads a RecorderState from the
recorder (lines 140 and 334) and src/app/state.py declares the enum, but
src/app/recorder.py never defines a state attribute.  Following the spec's
state machine, RECORDING holds exactly when is_recording is set (after
finalize), STARTING when a subprocess handle exists before finalization,
and IDLE otherwise. -/
def recorder_spec_state (r : TapeRecorder) : RecorderState :=
  if r.is_recording then .RECORDING
  else if r.process ≠ none then .STARTING
  else .IDLE

/-- Append to a collections.deque with the given maxlen: the new element is
appended and the oldest elements are discarded so that at most maxlen
remain (src/app/recorder.py line 15 creates the buffer with maxlen=50). -/
def dequeAppend (maxlen : Nat) (buf : List String) (x : String) : List String :=
  let l := buf ++ [x]
  if maxlen < l.length then l.drop (l.length - maxlen) else l

/-- One iteration of the stderr reader loop (_capture_stderr,
src/app/recorder.py lines 173-183): a nonempty decoded line is appended to
the ring buffer; empty lines are skipped.  The error-marker match only
prints a diagnostic and does not change the buffer. -/
def capture_stderr_step (r : TapeRecorder) (decoded : String) : TapeRecorder :=
  if decoded ≠ "" then
    { r with stderr_buffer := dequeAppend 50 r.stderr_buffer decoded }
  else r

/-- The whole stderr reader loop, draining the given decoded lines in
order. -/
def capture_stderr (r : TapeRecorder) (lines : List String) : TapeRecorder :=
  lines.foldl capture_stderr_step r

/-- get_elapsed_seconds (src/app/recorder.py lines 235-238), with the
monotonic clock reading passed explicitly. -/
def get_elapsed_seconds (r : TapeRecorder) (now : Nat) : Nat :=
  if r.is_recording then now - r.start_time_monotonic else 0

/-- finalize_recording_state (src/app/recorder.py lines 195-198): called
only after the health checks pass; sets the recording flag and stamps the
monotonic start time. -/
def finalize_recording_state (r : TapeRecorder) (now : Nat) : TapeRecorder :=
  { r with is_recording := true, start_time_monotonic := now }

/-- Possible behaviours of the ffmpeg subprocess during stop_recording
(src/app/recorder.py lines 200-233): it exits within 2s of the quit
signal; it exits only after terminate; it survives terminate and must be
killed; or some step raises an exception, which the except clause
catches. -/
inductive StopBehavior
  | exitsOnQuit
  | exitsOnTerminate
  | needsKill
  | raisesException
deriving DecidableEq, Repr

/-- stop_recording (src/app/recorder.py lines 200-233).  Returns the
updated recorder and the boolean result.  With no process the method just
clears is_recording and returns True.  Otherwise the finally clause always
clears the handle and the flag, and success is False exactly on the kill
branch and on a caught exception. -/
def stop_recording (r : TapeRecorder) (b : StopBehavior) : TapeRecorder × Bool :=
  match r.process with
  | none => ({ r with is_recording := false }, true)
  | some _ =>
      let success : Bool :=
        match b with
        | .exitsOnQuit => true
        | .exitsOnTerminate => true
        | .needsKill => false
        | .raisesException => false
      ({ r with process := none, is_recording := false }, success)

/-- Outcome of _resolve_ffmpeg and of subprocess.Popen, passed to
start_recording as an environment: the resolved executable path found by
the four-strategy lookup (none if every strategy fails), and whether the
spawn succeeds. -/
structure StartEnv where
  resolve_result : Option String
  spawn_ok : Bool
deriving DecidableEq, Repr

/-- _is_bauer_stream (src/app/recorder.py lines 114-117): URL substring
markers that force the re-encode path; the URL is lower-cased before
matching. -/
def is_bauer_stream (url : String) : Bool :=
  let u := (url.toLower).toList
  decide ("sharp-stream.com".toList <:+: u)
    || decide ("instreamtest".toList <:+: u)
    || decide ("aacp".toList <:+: u)

/-- Encoding mode actually used by _spawn_ffmpeg (src/app/recorder.py lines
119-124): the caller's use_copy preference, overridden to re-encode for
Bauer streams. -/
def spawn_use_copy (url : String) (use_copy : Bool) : Bool :=
  if is_bauer_stream url then false else use_copy

/-- start_recording (src/app/recorder.py lines 94-112) together with the
spawn step of _spawn_ffmpeg (lines 155-171).  The only guard is the
is_recording flag; on a resolve failure nothing is changed; after a
successful resolve the path, output path, url are stored and the stderr
buffer cleared, then the spawn either installs the new subprocess handle
and returns True, or returns False. -/
def start_recording (r : TapeRecorder) (env : StartEnv) (url output_path : String)
    (_prefer_stream_copy _low_latency : Bool) (newProc : Nat) : TapeRecorder × Bool :=
  if r.is_recording then (r, false)
  else
    match env.resolve_result with
    | none => (r, false)
    | some p =>
        let r1 := { r with resolved_path := some p, output_path := output_path,
                           url := url, stderr_buffer := [] }
        if env.spawn_ok then ({ r1 with process := some newProc }, true)
        else (r1, false)

/-! Helper lemmas. -/

theorem dequeAppend_length_le (buf : List String) (x : String) :
    (dequeAppend 50 buf x).length ≤ 50 := by
  unfold dequeAppend
  by_cases h : 50 < (buf ++ [x]).length
  · rw [if_pos h, List.length_drop]
    omega
  · rw [if_neg h]
    omega

/-! Claim theorems. -/

/-- Claim C10: the stderr ring buffer never holds more than 50 lines: the
bound is preserved by every append performed by the reader thread,
whatever lines the subprocess produces. -/
theorem stderr_ring_bound (r : TapeRecorder) (lines : List String)
    (h : r.stderr_buffer.length ≤ 50) :
    (capture_stderr r lines).stderr_buffer.length ≤ 50 := by
  induction lines generalizing r with
  | nil => simpa [capture_stderr] using h
  | cons a as ih =>
      have hstep : (capture_stderr_step r a).stderr_buffer.length ≤ 50 := by
        unfold capture_stderr_step
        by_cases ha : a = ""
        · rw [if_neg (by simp [ha])]
          exact h
        · rw [if_pos ha]
          exact dequeAppend_length_le _ _
      exact ih (capture_stderr_step r a) hstep

/-- Claim C10 witness: starting from the freshly constructed recorder
(empty buffer) and 60 produced lines, the bound holds. -/
theorem stderr_ring_bound_witness :
    ((⟨"ffmpeg", none, none, 0, false, [], "", ""⟩ : TapeRecorder)).stderr_buffer.length ≤ 50
    ∧ (capture_stderr ⟨"ffmpeg", none, none, 0, false, [], "", ""⟩
        (List.replicate 60 "x")).stderr_buffer.length ≤ 50 :=
  ⟨by decide, stderr_ring_bound ⟨"ffmpeg", none, none, 0, false, [], "", ""⟩ _ (by decide)⟩

/-- Claim C5: every stop_recording call ends with the subprocess handle
cleared and is_recording false (the spec state IDLE), elapsed time reads
zero afterwards, and the returned boolean is false exactly when a spawned
process had to be force-killed or an exception was caught; no path
raises. -/
theorem stop_recording_always_idle (r : TapeRecorder) (b : StopBehavior) :
    (stop_recording r b).1.process = none
    ∧ (stop_recording r b).1.is_recording = false
    ∧ recorder_spec_state (stop_recording r b).1 = .IDLE
    ∧ (∀ now, get_elapsed_seconds (stop_recording r b).1 now = 0)
    ∧ ((stop_recording r b).2 = false
        ↔ (r.process ≠ none ∧ (b = .needsKill ∨ b = .raisesException))) := by
  obtain ⟨fp, rp, proc, st, ir, buf, op, u⟩ := r
  cases proc <;> cases b <;>
    simp [stop_recording, get_elapsed_seconds, recorder_spec_state]

/-- Claim C5 witness: a recorder with a live subprocess whose stop requires
the force-kill path ends idle and reports the soft failure. -/
theorem stop_recording_always_idle_witness :
    (stop_recording ⟨"ffmpeg", some "x", some 1, 10, true, [], "o", "u"⟩
        .needsKill).1.is_recording = false
    ∧ (stop_recording ⟨"ffmpeg", some "x", some 1, 10, true, [], "o", "u"⟩
        .needsKill).2 = false :=
  ⟨(stop_recording_always_idle ⟨"ffmpeg", some "x", some 1, 10, true, [], "o", "u"⟩
      .needsKill).2.1,
   (stop_recording_always_idle ⟨"ffmpeg", some "x", some 1, 10, true, [], "o", "u"⟩
      .needsKill).2.2.2.2.mpr ⟨by decide, Or.inl rfl⟩⟩

/-- Claim C6 counterexample: while a previous attempt is in STARTING (a
subprocess handle exists but the health checks have not finalized, so
is_recording is still false), a second start_recording call is not
rejected: it resolves, spawns again, returns success and replaces the
previous subprocess handle. -/
theorem start_recording_c6_counterexample :
    recorder_spec_state ⟨"ffmpeg", some "x", some 1, 0, false, [], "o", "u"⟩ = .STARTING
    ∧ (start_recording ⟨"ffmpeg", some "x", some 1, 0, false, [], "o", "u"⟩
        ⟨some "p", true⟩ "u2" "o2" true true 2).2 = true
    ∧ (start_recording ⟨"ffmpeg", some "x", some 1, 0, false, [], "o", "u"⟩
        ⟨some "p", true⟩ "u2" "o2" true true 2).1.process = some 2 := by
  decide

/-- Claim C6 (amended): start_recording is a no-op returning failure
whenever a recording is active (is_recording true, the spec state
RECORDING); the recorder is left unchanged.  Issued during STARTING or
after a stop it is not blocked. -/
theorem start_recording_noop_when_recording (r : TapeRecorder) (env : StartEnv)
    (url out : String) (pc ll : Bool) (np : Nat) (h : r.is_recording = true) :
    start_recording r env url out pc ll np = (r, false) := by
  simp [start_recording, h]

/-- Claim C6 (amended) witness: a recorder in RECORDING rejects a second
start and is unchanged. -/
theorem start_recording_noop_when_recording_witness :
    ((⟨"ffmpeg", some "x", some 1, 0, true, [], "o", "u"⟩ : TapeRecorder)).is_recording = true
    ∧ start_recording ⟨"ffmpeg", some "x", some 1, 0, true, [], "o", "u"⟩
        ⟨some "p", true⟩ "u2" "o2" true true 2
      = (⟨"ffmpeg", some "x", some 1, 0, true, [], "o", "u"⟩, false) :=
  ⟨rfl, start_recording_noop_when_recording _ _ _ _ _ _ _ rfl⟩

/-- Outcome of the recording health-check ladder: a failure at a given step
(on which _perform_rec_health_check invokes the _handle_rec_fail path) or
the final promotion of the session. -/
inductive HealthOutcome
  | failed (step : Nat)
  | finalized
deriving DecidableEq, Repr

/-- _perform_rec_health_check (src/app/main.py lines 394-419) as a function
of the observations: obs n is the (alive, size) pair that
recorder.check_status returns at the nth scheduled step (1-indexed), and
count is the value of _rec_check_count before the step runs.  The first
call is made with count = 0.  A dead process fails the step immediately; a
zero-byte file fails only at the fourth step; otherwise the next step is
scheduled until step 4 succeeds. -/
def health_check_run (obs : Nat → Bool × Nat) (count : Nat) : HealthOutcome :=
  if (obs (count + 1)).1 = false then .failed (count + 1)
  else if (obs (count + 1)).2 = 0 ∧ count + 1 = 4 then .failed (count + 1)
  else if count + 1 < 4 then health_check_run obs (count + 1)
  else .finalized
termination_by 4 - count
decreasing_by omega

theorem health_check_run_eq (obs : Nat → Bool × Nat) (count : Nat) :
    health_check_run obs count =
      if (obs (count + 1)).1 = false then .failed (count + 1)
      else if (obs (count + 1)).2 = 0 ∧ count + 1 = 4 then .failed (count + 1)
      else if count + 1 < 4 then health_check_run obs (count + 1)
      else .finalized := by
  rw [health_check_run]

/-- Claim C2: if the subprocess is alive at all four steps and the file has
nonzero size at the fourth, the ladder finalizes (and
finalize_recording_state promotes the session to RECORDING); zero sizes at
steps 1-3 alone never fail it.  If the file is still empty at the fourth
step the ladder fails there, and a dead process fails the ladder at some
step. -/
theorem health_check_ladder_c2 (obs : Nat → Bool × Nat) :
    (((obs 1).1 = true ∧ (obs 2).1 = true ∧ (obs 3).1 = true ∧ (obs 4).1 = true) →
      ((obs 4).2 ≠ 0 → health_check_run obs 0 = .finalized)
      ∧ ((obs 4).2 = 0 → health_check_run obs 0 = .failed 4))
    ∧ (((obs 1).1 = false ∨ (obs 2).1 = false ∨ (obs 3).1 = false ∨ (obs 4).1 = false) →
      ∃ k, 1 ≤ k ∧ k ≤ 4 ∧ health_check_run obs 0 = .failed k)
    ∧ (∀ (r : TapeRecorder) (now : Nat),
        recorder_spec_state (finalize_recording_state r now) = .RECORDING
        ∧ (finalize_recording_state r now).start_time_monotonic = now) := by
  refine ⟨?_, ?_, ?_⟩
  · rintro ⟨a1, a2, a3, a4⟩
    constructor
    · intro h4
      rw [health_check_run_eq obs 0, if_neg (by simp [a1]), if_neg (by simp),
        if_pos (by norm_num),
        health_check_run_eq obs 1, if_neg (by simp [a2]), if_neg (by simp),
        if_pos (by norm_num),
        health_check_run_eq obs 2, if_neg (by simp [a3]), if_neg (by simp),
        if_pos (by norm_num),
        health_check_run_eq obs 3, if_neg (by simp [a4]), if_neg (by simp [h4]),
        if_neg (by norm_num)]
    · intro h4
      rw [health_check_run_eq obs 0, if_neg (by simp [a1]), if_neg (by simp),
        if_pos (by norm_num),
        health_check_run_eq obs 1, if_neg (by simp [a2]), if_neg (by simp),
        if_pos (by norm_num),
        health_check_run_eq obs 2, if_neg (by simp [a3]), if_neg (by simp),
        if_pos (by norm_num),
        health_check_run_eq obs 3, if_neg (by simp [a4]), if_pos (by simp [h4])]
  · intro h
    by_cases b1 : (obs 1).1 = false
    · refine ⟨1, by omega, by omega, ?_⟩
      rw [health_check_run_eq obs 0, if_pos (by simp [b1])]
    · by_cases b2 : (obs 2).1 = false
      · refine ⟨2, by omega, by omega, ?_⟩
        rw [health_check_run_eq obs 0, if_neg (by simp [b1]), if_neg (by simp),
          if_pos (by norm_num),
          health_check_run_eq obs 1, if_pos (by simp [b2])]
      · by_cases b3 : (obs 3).1 = false
        · refine ⟨3, by omega, by omega, ?_⟩
          rw [health_check_run_eq obs 0, if_neg (by simp [b1]), if_neg (by simp),
            if_pos (by norm_num),
            health_check_run_eq obs 1, if_neg (by simp [b2]), if_neg (by simp),
            if_pos (by norm_num),
            health_check_run_eq obs 2, if_pos (by simp [b3])]
        · by_cases b4 : (obs 4).1 = false
          · refine ⟨4, by omega, by omega, ?_⟩
            rw [health_check_run_eq obs 0, if_neg (by simp [b1]), if_neg (by simp),
              if_pos (by norm_num),
              health_check_run_eq obs 1, if_neg (by simp [b2]), if_neg (by simp),
              if_pos (by norm_num),
              health_check_run_eq obs 2, if_neg (by simp [b3]), if_neg (by simp),
              if_pos (by norm_num),
              health_check_run_eq obs 3, if_pos (by simp [b4])]
          · rcases h with h | h | h | h
            · exact absurd h b1
            · exact absurd h b2
            · exact absurd h b3
            · exact absurd h b4
  · intro r now
    exact ⟨by simp [recorder_spec_state, finalize_recording_state], rfl⟩

/-- Claim C2 witness: a process that stays alive with a file reaching
nonzero size at the second step finalizes after the fourth step. -/
theorem health_check_ladder_c2_witness :
    ((fun n => (true, if 2 ≤ n then 100 else 0) : Nat → Bool × Nat) 1).1 = true
    ∧ ((fun n => (true, if 2 ≤ n then 100 else 0) : Nat → Bool × Nat) 4).2 ≠ 0
    ∧ health_check_run (fun n => (true, if 2 ≤ n then 100 else 0)) 0 = .finalized :=
  ⟨by decide, by decide,
    ((health_check_ladder_c2 (fun n => (true, if 2 ≤ n then 100 else 0))).1
      ⟨by decide, by decide, by decide, by decide⟩).1 (by decide)⟩

/-- _handle_rec_fail (src/app/main.py lines 421-428): the recorder is
stopped, then either a fresh _start_recording_attempt with prefer_copy set
to False is issued (result: some false) when the reported failed mode was
stream copy, or the terminal FFMPEG ERROR is shown and nothing is retried
(result: none). -/
def handle_rec_fail (was_copy : Bool) : Option Bool :=
  if was_copy then some false else none

/-- Health-check failure call site (src/app/main.py lines 401 and 407): the
flag passed to _handle_rec_fail is self._rec_check_prefer_copy, the
prefer_copy argument of the current attempt. -/
def ladder_fail_action (rec_check_prefer_copy : Bool) : Option Bool :=
  handle_rec_fail rec_check_prefer_copy

/-- Crash-watchdog branch of poll_vlc_status (src/app/main.py lines
143-149): when a finalized recording's subprocess is found dead, the CRASH
event is logged and _handle_rec_fail is invoked with
settings.get("prefer_stream_copy", True) - the configured preference, not
the mode of the failed attempt.  Returns none when the branch does not run,
otherwise the fallback action taken. -/
def poll_vlc_watchdog (settings_prefer_stream_copy : Bool)
    (is_recording alive : Bool) : Option (Option Bool) :=
  if is_recording = true ∧ alive = false then
    some (handle_rec_fail settings_prefer_stream_copy)
  else none

/-- Claim C1 (code bug): with the default setting prefer_stream_copy =
true, a mid-recording crash of an attempt that was already re-encoding (the
forced retry, prefer_copy = false) is handled by _handle_rec_fail(true),
which schedules another automatic retry (some (some false)) instead of the
terminal error the claim requires; the flag the claim calls for would give
none (terminal), as the ladder call site does for a re-encoding attempt. -/
theorem crash_retry_c1_bug :
    poll_vlc_watchdog true true false = some (some false)
    ∧ ladder_fail_action false = none
    ∧ handle_rec_fail false = none := by
  decide

/-- Fixed reconnect backoff ladder (src/app/main.py line 221). -/
def backoff : List Nat := [1, 2, 5, 10]

/-- _confirm_stream_lost (src/app/main.py lines 210-226), restricted to its
scheduling effect: given the on-air intent, the polled player state,
whether the reconnect timer is already active and the current retry count,
it returns the scheduled reconnect delay in seconds (none when nothing is
scheduled; the QTimer is started with delay * 1000 ms) and the new retry
count. -/
def confirm_stream_lost (on_air : Bool) (ps : PlayerState)
    (reconnect_active : Bool) (retry_count : Nat) : Option Nat × Nat :=
  if on_air = false then (none, retry_count)
  else if ps = .STOPPED ∨ ps = .ENDED ∨ ps = .ERROR then
    if reconnect_active = false then
      (some (backoff.getD (min retry_count (backoff.length - 1)) 0), retry_count + 1)
    else (none, retry_count)
  else (none, retry_count)

/-- _reconnect_attempt (src/app/main.py lines 132-136): when the timer
fires, play is re-issued (via _start_playback, which needs a channel URL)
only if on-air intent is still true. -/
def reconnect_attempt_plays (on_air has_url : Bool) : Bool :=
  if on_air = false then false else has_url

/-- Claim C3: whenever _confirm_stream_lost schedules a reconnect with
retry count N, the scheduled delay is [1,2,5,10][min(N,3)] seconds
(saturating at 10s for N at least 3) and the retry count is incremented;
and a reconnect timer firing while on-air intent is false never re-issues
play. -/
theorem reconnect_backoff_c3 :
    (∀ (on_air : Bool) (ps : PlayerState) (ra : Bool) (n d : Nat),
      (confirm_stream_lost on_air ps ra n).1 = some d →
        d = backoff.getD (min n 3) 0 ∧ (confirm_stream_lost on_air ps ra n).2 = n + 1)
    ∧ (∀ n : Nat, backoff.getD (min n 3) 0 =
        if n = 0 then 1 else if n = 1 then 2 else if n = 2 then 5 else 10)
    ∧ (∀ has_url : Bool, reconnect_attempt_plays false has_url = false) := by
  refine ⟨?_, ?_, ?_⟩
  · intro on_air ps ra n d h
    by_cases hair : on_air = false
    · simp [confirm_stream_lost, hair] at h
    · by_cases hps : ps = .STOPPED ∨ ps = .ENDED ∨ ps = .ERROR
      · by_cases hra : ra = false
        · rw [confirm_stream_lost, if_neg hair, if_pos hps, if_pos hra] at h
          simp only [Option.some.injEq] at h
          constructor
          · rw [← h]
            rfl
          · rw [confirm_stream_lost, if_neg hair, if_pos hps, if_pos hra]
        · simp [confirm_stream_lost, hair, hps, hra] at h
      · simp [confirm_stream_lost, hair, hps] at h
  · intro n
    rcases n with _ | n1
    · decide
    rcases n1 with _ | n2
    · decide
    rcases n2 with _ | m
    · decide
    have hmin : min (m + 3) 3 = 3 := by omega
    rw [hmin, if_neg (show ¬(m + 3 = 0) by omega), if_neg (show ¬(m + 3 = 1) by omega),
      if_neg (show ¬(m + 3 = 2) by omega)]
    rfl
  · intro has_url
    rfl

/-- Claim C3 witness: with on-air intent, a confirmed-lost STOPPED state, no
pending reconnect and retry count 0, the scheduled delay is 1s and the
count becomes 1. -/
theorem reconnect_backoff_c3_witness :
    (confirm_stream_lost true .STOPPED false 0).1 = some 1
    ∧ 1 = backoff.getD (min 0 3) 0
    ∧ (confirm_stream_lost true .STOPPED false 0).2 = 0 + 1 :=
  ⟨by decide, (reconnect_backoff_c3.1 true .STOPPED false 0 1 (by decide)).1,
    (reconnect_backoff_c3.1 true .STOPPED false 0 1 (by decide)).2⟩

/-- Arguments of one TapeLogger.log_event call made by poll_metadata: the
event kind, the track description, the recording-elapsed stamp and the
suffix (empty when none is passed). -/
structure LogCall where
  event_type : String
  track_info : String
  rec_seconds : Nat
  suffix : String
deriving DecidableEq, Repr

/-- The conditional END call of poll_metadata (src/app/main.py lines
553-554): Python's truthiness test on last_track_key means both None and
the empty string skip the END line. -/
def end_call_for (last : Option String) (rec_secs : Nat) : List LogCall :=
  match last with
  | some k => if k ≠ "" then [⟨"END", k, rec_secs, "track changed"⟩] else []
  | none => []

/-- Track-change section of poll_metadata (src/app/main.py lines 541-558):
given the polled (artist, title) after the fallback substitution, the last
seen track key, whether a finalized recording with a logger is active and
the recording elapsed seconds read once for the poll, it returns whether a
track-change event is emitted (history entry appended and last key
updated), the log_event calls made, and the new last key. -/
def poll_metadata_track (artist title : String) (last : Option String)
    (is_recording has_logger : Bool) (rec_secs : Nat) :
    Bool × List LogCall × Option String :=
  if some (artist ++ " — " ++ title) ≠ last ∧ title ≠ "—" then
    (true,
     if is_recording && has_logger then
       end_call_for last rec_secs
         ++ [⟨"START", artist ++ " — " ++ title, rec_secs, ""⟩]
     else [],
     some (artist ++ " — " ++ title))
  else (false, [], last)

/-- Claim C4: a track-change event is emitted iff the new artist-title key
differs from the last-seen key and the title is not the sentinel; and when
a recording with a logger is active and the previous key is a nonempty
string, the emission makes exactly the END call for the previous key
followed by the START call for the new key, both stamped with the same
elapsed value. -/
theorem track_change_c4 (artist title : String) (last : Option String)
    (is_rec has_logger : Bool) (rs : Nat) :
    ((poll_metadata_track artist title last is_rec has_logger rs).1 = true
      ↔ (some (artist ++ " — " ++ title) ≠ last ∧ title ≠ "—"))
    ∧ (is_rec = true → has_logger = true → ∀ k, last = some k → k ≠ "" →
        (poll_metadata_track artist title last is_rec has_logger rs).1 = true →
        (poll_metadata_track artist title last is_rec has_logger rs).2.1 =
          [⟨"END", k, rs, "track changed"⟩,
           ⟨"START", artist ++ " — " ++ title, rs, ""⟩]) := by
  constructor
  · by_cases hc : some (artist ++ " — " ++ title) ≠ last ∧ title ≠ "—"
    · rw [poll_metadata_track, if_pos hc]
      simpa using hc
    · rw [poll_metadata_track, if_neg hc]
      simpa using hc
  · intro hrec hlog k hk hkne hemit
    subst hk
    by_cases hc : some (artist ++ " — " ++ title) ≠ some k ∧ title ≠ "—"
    · rw [poll_metadata_track, if_pos hc]
      simp [end_call_for, hrec, hlog, hkne]
    · rw [poll_metadata_track, if_neg hc] at hemit
      simp at hemit

/-- Claim C4 witness: recording active with logger, track changes from
"A — X" to "B — Y" at 30 elapsed seconds: exactly the END call for the old
key and the START call for the new key are made, both stamped 30. -/
theorem track_change_c4_witness :
    (poll_metadata_track "B" "Y" (some "A — X") true true 30).1 = true
    ∧ (poll_metadata_track "B" "Y" (some "A — X") true true 30).2.1 =
        [⟨"END", "A — X", 30, "track changed"⟩, ⟨"START", "B — Y", 30, ""⟩] :=
  ⟨((track_change_c4 "B" "Y" (some "A — X") true true 30).1).mpr
      ⟨by decide, by decide⟩,
   (track_change_c4 "B" "Y" (some "A — X") true true 30).2 rfl rfl "A — X" rfl
      (by decide) (((track_change_c4 "B" "Y" (some "A — X") true true 30).1).mpr
        ⟨by decide, by decide⟩)⟩

/-- In-flight timers owned by TapeDeckApp (src/app/main.py): the single-shot
reconnect timer, the single-shot stream-loss debounce (lost_candidate)
timer, and whether a QTimer.singleShot continuation of
_perform_rec_health_check is pending. -/
structure Timers where
  reconnect_active : Bool
  lost_candidate_active : Bool
  health_check_pending : Bool
deriving DecidableEq, Repr

/-- Timer effect of handle_on_air with checked False (src/app/main.py lines
101-107): an active recording is stopped first (which, per
stop_recording_sync_timers, cancels nothing), then only
self.reconnect_timer.stop() runs; the lost_candidate timer and any pending
health-check continuation are untouched. -/
def handle_on_air_off_timers (t : Timers) : Timers :=
  { t with reconnect_active := false }

/-- Timer effect of handle_channel_change (src/app/main.py lines 439-445):
when on-air intent is set, the reconnect timer is stopped before replaying;
nothing else is cancelled. -/
def handle_channel_change_timers (on_air : Bool) (t : Timers) : Timers :=
  if on_air then { t with reconnect_active := false } else t

/-- Timer effect of _stop_recording_sync together with
TapeRecorder.stop_recording (src/app/main.py lines 333-343,
src/app/recorder.py lines 200-233): no timer is stopped anywhere on the
recording stop path. -/
def stop_recording_sync_timers (t : Timers) : Timers := t

/-- Claim C7 counterexample: with the debounce timer and a health-check
continuation both pending, going off-air leaves both pending (only the
reconnect timer is cancelled), and stopping a recording cancels nothing, so
the claimed cancellation of every in-flight timer does not happen. -/
theorem cancel_timers_c7_counterexample :
    (handle_on_air_off_timers ⟨true, true, true⟩).lost_candidate_active = true
    ∧ (handle_on_air_off_timers ⟨true, true, true⟩).health_check_pending = true
    ∧ stop_recording_sync_timers ⟨true, true, true⟩ = ⟨true, true, true⟩ := by
  decide

/-- Claim C7 (amended): going off-air, and changing channel while on-air,
synchronously cancel the reconnect timer and only it; the stream-loss
debounce timer and any pending health-check continuation stay pending
(the debounce callback itself no-ops once on-air intent is false), and
stopping a recording cancels no timer. -/
theorem cancel_timers_c7_amended (t : Timers) :
    (handle_on_air_off_timers t).reconnect_active = false
    ∧ (handle_channel_change_timers true t).reconnect_active = false
    ∧ (handle_on_air_off_timers t).lost_candidate_active = t.lost_candidate_active
    ∧ (handle_on_air_off_timers t).health_check_pending = t.health_check_pending
    ∧ stop_recording_sync_timers t = t
    ∧ (∀ (ps : PlayerState) (ra : Bool) (n : Nat),
        confirm_stream_lost false ps ra n = (none, n)) := by
  refine ⟨rfl, rfl, rfl, rfl, rfl, ?_⟩
  intro ps ra n
  rfl

/-- Two-digit zero padding, Python's format spec 02 on a natural number. -/
def pad2 (n : Nat) : String :=
  if n < 10 then "0" ++ toString n else toString n

/-- format_duration (src/app/utils.py lines 25-31) on nonnegative whole
seconds: +MM:SS, switching to +HH:MM:SS when the minutes reach 60. -/
def format_duration (seconds : Nat) : String :=
  let mm := seconds / 60
  let ss := seconds % 60
  if 60 ≤ mm then
    "+" ++ pad2 (mm / 60) ++ ":" ++ pad2 (mm % 60) ++ ":" ++ pad2 ss
  else
    "+" ++ pad2 mm ++ ":" ++ pad2 ss

/-- Width-5 left justification of the event kind, Python's format spec <5 in
log_event (src/app/logger.py line 18): the padding spaces go on the
right. -/
def padKind (s : String) : String :=
  s ++ String.mk (List.replicate (5 - s.length) ' ')

/-- Formatted line of TapeLogger.log_event (src/app/logger.py lines 10-21):
wall-clock bracket, elapsed bracket (+00:00 when rec_seconds is None), the
kind under format spec <5, the track info, and the parenthesized suffix
when one is supplied. -/
def format_line (hms event_type track_info : String)
    (rec_seconds : Option Nat) (suffix : String) : String :=
  let rec_time :=
    match rec_seconds with
    | some s => format_duration s
    | none => "+00:00"
  let line := "[" ++ hms ++ "] [" ++ rec_time ++ "] " ++ padKind event_type
    ++ " " ++ track_info
  if suffix ≠ "" then line ++ " (" ++ suffix ++ ")" else line

/-- TapeLogger state (src/app/logger.py lines 4-8). -/
structure TapeLogger where
  log_path : String
  has_ui_callback : Bool
  last_line : String
deriving DecidableEq, Repr

/-- log_event (src/app/logger.py lines 10-33), with the outcome of the file
append passed in as write_ok.  Returns the updated logger, the line
appended to the file (none when the write raised; the exception is caught
and only printed to diagnostics) and the line delivered to the UI observer
callback.  last_line is assigned before the write is attempted, and the UI
callback runs after it, on both outcomes. -/
def log_event (lg : TapeLogger) (hms event_type track_info : String)
    (rec_seconds : Option Nat) (suffix : String) (write_ok : Bool) :
    TapeLogger × Option String × Option String :=
  let line := format_line hms event_type track_info rec_seconds suffix
  ({ lg with last_line := line },
   if write_ok then some line else none,
   if lg.has_ui_callback then some line else none)

/-- Claim C8: a failed file append never escapes log_event: the formatted
line is still stored as last_line and still delivered to the UI callback,
the resulting logger state is identical to the successful-write case, and
only the file append itself is lost. -/
theorem log_event_write_failure_c8 (lg : TapeLogger) (hms et ti : String)
    (rs : Option Nat) (sfx : String) :
    (log_event lg hms et ti rs sfx false).1.last_line = format_line hms et ti rs sfx
    ∧ (lg.has_ui_callback = true →
        (log_event lg hms et ti rs sfx false).2.2 = some (format_line hms et ti rs sfx))
    ∧ (log_event lg hms et ti rs sfx false).1 = (log_event lg hms et ti rs sfx true).1
    ∧ (log_event lg hms et ti rs sfx false).2.1 = none := by
  refine ⟨rfl, ?_, rfl, rfl⟩
  intro h
  simp [log_event, h]

/-- Claim C8 witness: with a UI callback attached, a failed write still
stores and mirrors the formatted line. -/
theorem log_event_write_failure_c8_witness :
    ((⟨"rec.txt", true, ""⟩ : TapeLogger)).has_ui_callback = true
    ∧ (log_event ⟨"rec.txt", true, ""⟩ "12:00:00" "START" "A — B" none "" false).2.2
      = some (format_line "12:00:00" "START" "A — B" none "") :=
  ⟨rfl, (log_event_write_failure_c8 ⟨"rec.txt", true, ""⟩ "12:00:00" "START" "A — B"
    none "").2.1 rfl⟩

/-- Recording-elapsed marker as the spec words it: +MM:SS, becoming
+HH:MM:SS once the minutes reach 60, and +00:00 when no elapsed value is
supplied. -/
def spec_elapsed_marker (rs : Option Nat) : String :=
  match rs with
  | none => "+00:00"
  | some s =>
      if 60 ≤ s / 60 then
        "+" ++ pad2 (s / 60 / 60) ++ ":" ++ pad2 (s / 60 % 60) ++ ":" ++ pad2 (s % 60)
      else
        "+" ++ pad2 (s / 60) ++ ":" ++ pad2 (s % 60)

/-- Width-5 left padding of the kind, as claim C9 literally words it
("left-padded to a fixed width of 5 characters"): the padding spaces go on
the left. -/
def leftPad5 (s : String) : String :=
  String.mk (List.replicate (5 - s.length) ' ') ++ s

/-- Log line shape under the claim's literal reading, with the kind
left-padded. -/
def spec_log_line_leftpad (hms kind track : String) (rs : Option Nat)
    (sfx : String) : String :=
  let base := "[" ++ hms ++ "] [" ++ spec_elapsed_marker rs ++ "] " ++ leftPad5 kind
    ++ " " ++ track
  if sfx ≠ "" then base ++ " (" ++ sfx ++ ")" else base

/-- Log line shape as claimed, with the padding direction amended to the
left justification the code performs. -/
def spec_log_line (hms kind track : String) (rs : Option Nat)
    (sfx : String) : String :=
  let base := "[" ++ hms ++ "] [" ++ spec_elapsed_marker rs ++ "] " ++ padKind kind
    ++ " " ++ track
  if sfx ≠ "" then base ++ " (" ++ sfx ++ ")" else base

/-- Claim C9 counterexample: for an END event at 30 elapsed seconds the
code produces "[12:00:00] [+00:30] END   A — B" - the kind is
left-justified with the padding on the right - and not the left-padded line
the claim describes. -/
theorem log_line_c9_counterexample :
    format_line "12:00:00" "END" "A — B" (some 30) ""
      = "[12:00:00] [+00:30] END   A — B"
    ∧ format_line "12:00:00" "END" "A — B" (some 30) ""
      ≠ spec_log_line_leftpad "12:00:00" "END" "A — B" (some 30) "" := by
  decide

/-- Claim C9 (amended): every logged line equals the claimed shape with the
kind left-justified (space-padded on the right) to width 5: wall-clock
bracket, elapsed marker (+MM:SS, +HH:MM:SS once the minutes reach 60,
+00:00 when absent), padded kind, track info, and the parenthesized suffix
exactly when one is supplied; for kinds of at most 5 characters the padded
field is exactly 5 characters wide. -/
theorem log_line_c9_amended (hms kind track : String) (rs : Option Nat)
    (sfx : String) :
    format_line hms kind track rs sfx = spec_log_line hms kind track rs sfx
    ∧ (kind.length ≤ 5 → (padKind kind).length = 5) := by
  constructor
  · cases rs with
    | none =>
        by_cases hs : sfx = "" <;>
          simp [format_line, spec_log_line, spec_elapsed_marker, hs]
    | some s =>
        by_cases hs : sfx = "" <;>
          simp [format_line, spec_log_line, spec_elapsed_marker, format_duration, hs]
  · intro hk
    unfold padKind
    rw [String.length_append]
    have hmk : (String.mk (List.replicate (5 - kind.length) ' ')).length
        = (List.replicate (5 - kind.length) ' ').length := rfl
    rw [hmk, List.length_replicate]
    omega

/-- Claim C9 (amended) witness: a concrete START line matches the amended
shape and the padded kind has width 5. -/
theorem log_line_c9_amended_witness :
    ("START".length ≤ 5)
    ∧ format_line "10:00:00" "START" "A — B" none ""
      = spec_log_line "10:00:00" "START" "A — B" none ""
    ∧ (padKind "START").length = 5 :=
  ⟨by decide, (log_line_c9_amended "10:00:00" "START" "A — B" none "").1,
    (log_line_c9_amended "10:00:00" "START" "A — B" none "").2 (by decide)⟩

end TapeDeck
